import Mathlib

/-
Verification of the telemetry sampling and derived-metric computation engine
of the system-monitor repository (src/app/agent/telemetry.py), shallowly
embedded in Lean 4.

Modelling conventions:
* A Python call that may raise is modelled as an `Except PyErr` value; the
  environment structures below carry one such value per OS/hardware primitive
  the code invokes (psutil calls, sysfs file reads, subprocess runs).
* Python `a or b` on cache lookups is modelled by the `pyOr*` helpers, which
  reproduce Python truthiness (`None`, `0`, `0.0` and `""` are falsy).
* Machine floats in the source carry exact values produced by divisions of
  integer counters; they are modelled as rationals (`ℚ`).
* The static cache dictionary is modelled as a structure of optional fields,
  all initially `none`, matching `TelemetryCollector.__init__`.
-/

namespace SystemMonitor

/-- A Python exception value surfacing from an OS or hardware primitive.
`zeroDiv` marks a `ZeroDivisionError`; `exn` stands for any other exception. -/
inductive PyErr where
  | exn : PyErr
  | zeroDiv : PyErr
deriving DecidableEq, Repr

/-- Whether an `Except` result is a normal return (the call did not raise). -/
def exceptIsOk {α : Type} : Except PyErr α → Bool
  | Except.ok _ => true
  | Except.error _ => false

/-- Python `cached_int or live_int`: the cached value when present and nonzero,
otherwise the fallback (0 and None are falsy). -/
def pyOrInt : Option ℤ → ℤ → ℤ
  | some v, d => if v = 0 then d else v
  | none, d => d

/-- Python `cached_str or live_str` where the fallback expression may raise:
the cached value when present and nonempty, otherwise the fallback result. -/
def pyOrStrE (o : Option String) (fallback : Except PyErr String) :
    Except PyErr String :=
  match o with
  | some s => if s = "" then fallback else Except.ok s
  | none => fallback

/-- Python `cached_str or live_str` with an infallible fallback. -/
def pyOrStr (o : Option String) (fallback : String) : String :=
  match o with
  | some s => if s = "" then fallback else s
  | none => fallback

/-- Python `cached_float or live_float` where the fallback may raise
(0.0 and None are falsy). -/
def pyOrQE (o : Option ℚ) (fallback : Except PyErr ℚ) : Except PyErr ℚ :=
  match o with
  | some v => if v = 0 then fallback else Except.ok v
  | none => fallback

/-- Python `int(x)` on a float: truncation toward zero. -/
def pyInt (q : ℚ) : ℤ :=
  q.num / (q.den : ℤ)

/-- Result object of `psutil.virtual_memory()`: the fields the collector reads. -/
structure VirtualMemory where
  used : ℤ
  total : ℤ
  percent : ℚ
deriving DecidableEq, Repr

/-- Result object of `psutil.disk_usage("/")`: the fields the collector reads. -/
structure DiskUsage where
  used : ℤ
  total : ℤ
deriving DecidableEq, Repr

/-- The `_static_cache` dictionary of `TelemetryCollector`, with every slot
initialized to `None` in `__init__`. -/
structure StaticCache where
  cpu_name : Option String := none
  cpu_core_count : Option ℤ := none
  gpu_name : Option String := none
  gpu_total_vram : Option ℤ := none
  total_ram : Option ℤ := none
  total_disk : Option ℤ := none
  hostname : Option String := none
  os_name : Option String := none
  kernel_version : Option String := none
  boot_time : Option ℚ := none
deriving DecidableEq, Repr

/-- The `MemoryMetrics` dataclass. -/
structure MemoryMetrics where
  ram_used : ℤ
  ram_total : ℤ
  ram_percent : ℚ
  disk_used : ℤ
  disk_total : ℤ
  disk_percent : ℚ
deriving DecidableEq, Repr

/-- The OS primitives invoked by `collect_memory_metrics`. -/
structure MemoryEnv where
  virtual_memory : Except PyErr VirtualMemory
  disk_usage : Except PyErr DiskUsage

/-- `TelemetryCollector.collect_memory_metrics`: reads live RAM and disk
figures, substitutes cached totals when they are set and nonzero, copies the
OS-reported RAM percent, and computes the disk percent by dividing by the
chosen disk total (a zero total raises `ZeroDivisionError`, as the division is
unguarded in the source). -/
def collect_memory_metrics (cache : StaticCache) (env : MemoryEnv) :
    Except PyErr MemoryMetrics :=
  match env.virtual_memory with
  | Except.error e => Except.error e
  | Except.ok memory =>
    let total_ram := pyOrInt cache.total_ram memory.total
    match env.disk_usage with
    | Except.error e => Except.error e
    | Except.ok disk =>
      let total_disk := pyOrInt cache.total_disk disk.total
      if total_disk = 0 then Except.error PyErr.zeroDiv
      else Except.ok
        { ram_used := memory.used
          ram_total := total_ram
          ram_percent := memory.percent
          disk_used := disk.used
          disk_total := total_disk
          disk_percent := (disk.used : ℚ) / (total_disk : ℚ) * 100 }

theorem collect_memory_metrics_ok (cache : StaticCache) (env : MemoryEnv)
    (vm : VirtualMemory) (du : DiskUsage)
    (hvm : env.virtual_memory = Except.ok vm)
    (hdu : env.disk_usage = Except.ok du)
    (htd : pyOrInt cache.total_disk du.total ≠ 0) :
    collect_memory_metrics cache env = Except.ok
      { ram_used := vm.used
        ram_total := pyOrInt cache.total_ram vm.total
        ram_percent := vm.percent
        disk_used := du.used
        disk_total := pyOrInt cache.total_disk du.total
        disk_percent := (du.used : ℚ) / ((pyOrInt cache.total_disk du.total : ℤ) : ℚ) * 100 } := by
  unfold collect_memory_metrics
  rw [hvm, hdu]
  simp [htd]

theorem collect_memory_metrics_zero (cache : StaticCache) (env : MemoryEnv)
    (vm : VirtualMemory) (du : DiskUsage)
    (hvm : env.virtual_memory = Except.ok vm)
    (hdu : env.disk_usage = Except.ok du)
    (htd : pyOrInt cache.total_disk du.total = 0) :
    collect_memory_metrics cache env = Except.error PyErr.zeroDiv := by
  unfold collect_memory_metrics
  rw [hvm, hdu]
  simp [htd]

/-- C1 (counterexample): with a cached RAM total of 32 and a live reading of
used 10 out of total 16 (OS percent 62.5), the returned snapshot has
`ram_used = 10`, `ram_total = 32`, `ram_percent = 62.5`, and
`62.5 ≠ 10/32 × 100 = 31.25`, so `ram_percent` is not `used/total × 100` for
the returned pair even though `used ≤ total`. -/
theorem c1_ram_percent_counterexample :
    collect_memory_metrics { total_ram := some 32 }
      { virtual_memory := Except.ok { used := 10, total := 16, percent := 125/2 }
        disk_usage := Except.ok { used := 5, total := 10 } }
    = Except.ok
      { ram_used := 10, ram_total := 32, ram_percent := 125/2
        disk_used := 5, disk_total := 10, disk_percent := 50 }
    ∧ (10 : ℤ) ≤ 32
    ∧ (125/2 : ℚ) ≠ (10 : ℚ) / (32 : ℚ) * 100 := by
  refine ⟨?_, by norm_num, by norm_num⟩
  unfold collect_memory_metrics
  norm_num [pyOrInt]

/-- C1 (amended): the disk identity `disk_percent = disk_used/disk_total × 100`
always holds for the returned pair (when the chosen disk total is nonzero);
the RAM identity `ram_percent = ram_used/ram_total × 100` holds for the
returned pair exactly under the extra assumptions that the OS-reported percent
equals `used/total × 100` of the live reading and that the cached RAM total is
absent, zero, or equal to the live total (since `ram_percent` is copied from
the live OS reading rather than recomputed from the returned pair). -/
theorem c1_percent_identities (cache : StaticCache) (env : MemoryEnv)
    (vm : VirtualMemory) (du : DiskUsage)
    (hvm : env.virtual_memory = Except.ok vm)
    (hdu : env.disk_usage = Except.ok du)
    (hram : pyOrInt cache.total_ram vm.total = vm.total)
    (hpct : vm.percent = (vm.used : ℚ) / (vm.total : ℚ) * 100)
    (htd : pyOrInt cache.total_disk du.total ≠ 0) :
    ∀ m : MemoryMetrics, collect_memory_metrics cache env = Except.ok m →
      m.ram_percent = (m.ram_used : ℚ) / (m.ram_total : ℚ) * 100
      ∧ m.disk_percent = (m.disk_used : ℚ) / (m.disk_total : ℚ) * 100 := by
  intro m hm
  rw [collect_memory_metrics_ok cache env vm du hvm hdu htd] at hm
  cases hm
  constructor
  · simpa [hram] using hpct
  · rfl

/-- C1 (witness): the amended theorem at a concrete input, covering both
boundary cases of the claim: RAM used = half of total gives 50, disk
used = total gives exactly 100. -/
theorem c1_percent_identities_witness :
    (50 : ℚ) = (16 : ℚ) / (32 : ℚ) * 100
    ∧ (100 : ℚ) = (10 : ℚ) / (10 : ℚ) * 100
    ∧ ∀ m : MemoryMetrics,
        collect_memory_metrics {}
          { virtual_memory := Except.ok { used := 16, total := 32, percent := 50 }
            disk_usage := Except.ok { used := 10, total := 10 } } = Except.ok m →
        m.ram_percent = (m.ram_used : ℚ) / (m.ram_total : ℚ) * 100
        ∧ m.disk_percent = (m.disk_used : ℚ) / (m.disk_total : ℚ) * 100 := by
  refine ⟨by norm_num, by norm_num, ?_⟩
  exact c1_percent_identities {}
    { virtual_memory := Except.ok { used := 16, total := 32, percent := 50 }
      disk_usage := Except.ok { used := 10, total := 10 } }
    { used := 16, total := 32, percent := 50 } { used := 10, total := 10 }
    rfl rfl rfl (by norm_num) (by decide)

/-- C10: the disk percent is produced by an unguarded division by the chosen
total — the cached disk total when set and nonzero, otherwise the live total.
When the chosen total is 0 the call raises `ZeroDivisionError` instead of
returning a snapshot; when it is nonzero the call returns the full snapshot
with `disk_percent = disk_used/chosen_total × 100`. The characterization of
the chosen total is stated explicitly in the last two conjuncts. -/
theorem c10_disk_division_guard (cache : StaticCache) (env : MemoryEnv)
    (vm : VirtualMemory) (du : DiskUsage)
    (hvm : env.virtual_memory = Except.ok vm)
    (hdu : env.disk_usage = Except.ok du) :
    (pyOrInt cache.total_disk du.total = 0 →
      collect_memory_metrics cache env = Except.error PyErr.zeroDiv)
    ∧ (pyOrInt cache.total_disk du.total ≠ 0 →
      collect_memory_metrics cache env = Except.ok
        { ram_used := vm.used
          ram_total := pyOrInt cache.total_ram vm.total
          ram_percent := vm.percent
          disk_used := du.used
          disk_total := pyOrInt cache.total_disk du.total
          disk_percent := (du.used : ℚ) / ((pyOrInt cache.total_disk du.total : ℤ) : ℚ) * 100 })
    ∧ (∀ t : ℤ, cache.total_disk = some t → t ≠ 0 →
        pyOrInt cache.total_disk du.total = t)
    ∧ ((cache.total_disk = none ∨ cache.total_disk = some 0) →
        pyOrInt cache.total_disk du.total = du.total) := by
  refine ⟨fun h => collect_memory_metrics_zero cache env vm du hvm hdu h,
    fun h => collect_memory_metrics_ok cache env vm du hvm hdu h, ?_, ?_⟩
  · intro t ht hnz
    simp [pyOrInt, ht, hnz]
  · rintro (h | h) <;> simp [pyOrInt, h]

/-- C10 (witness): both branches of the guard theorem at concrete inputs — a
state whose cached total is 0 and whose live total is 0 raises, and a state
whose cached total is 0 but whose live total is 4 divides safely. -/
theorem c10_disk_division_guard_witness :
    collect_memory_metrics { total_disk := some 0 }
      { virtual_memory := Except.ok { used := 1, total := 2, percent := 50 }
        disk_usage := Except.ok { used := 1, total := 0 } }
      = Except.error PyErr.zeroDiv
    ∧ collect_memory_metrics { total_disk := some 0 }
      { virtual_memory := Except.ok { used := 1, total := 2, percent := 50 }
        disk_usage := Except.ok { used := 1, total := 4 } }
      = Except.ok
        { ram_used := 1, ram_total := 2, ram_percent := 50
          disk_used := 1, disk_total := 4, disk_percent := (1 : ℚ) / (4 : ℚ) * 100 } := by
  constructor
  · exact (c10_disk_division_guard { total_disk := some 0 } _
      { used := 1, total := 2, percent := 50 } { used := 1, total := 0 }
      rfl rfl).1 (by decide)
  · have h := (c10_disk_division_guard { total_disk := some 0 }
      { virtual_memory := Except.ok { used := 1, total := 2, percent := 50 }
        disk_usage := Except.ok { used := 1, total := 4 } }
      { used := 1, total := 2, percent := 50 } { used := 1, total := 4 }
      rfl rfl).2.1 (by decide)
    simpa [pyOrInt] using h

/-- Python `s.startswith(p)`. -/
def py_startswith (s p : String) : Bool :=
  List.isPrefixOf p.data s.data

/-- Python `s.split(t, 1)`: the part before the first occurrence of the
one-character separator and the part after it, or `none` when absent. -/
def break_at_char (t : Char) : List Char → Option (List Char × List Char)
  | [] => none
  | c :: cs =>
    if c = t then some ([], cs)
    else
      match break_at_char t cs with
      | none => none
      | some (a, b) => some (c :: a, b)

/-- Python `s.split(t)` for a one-character separator: the full list of
fields, empty fields included. -/
def py_split_char (t : Char) : List Char → List (List Char)
  | [] => [[]]
  | c :: cs =>
    let r := py_split_char t cs
    if c = t then [] :: r
    else
      match r with
      | x :: xs => (c :: x) :: xs
      | [] => [[c]]

/-- Python `s.strip()`: whitespace removed from both ends. -/
def strip_chars (l : List Char) : List Char :=
  ((l.dropWhile Char.isWhitespace).reverse.dropWhile Char.isWhitespace).reverse

/-- Python `s.replace(pat, "")` for a fixed nonempty pattern: every
occurrence of the pattern deleted, scanning left to right. -/
def py_delete (pat : List Char) (s : List Char) : List Char :=
  match s with
  | [] => []
  | c :: cs =>
    if pat ≠ [] ∧ List.isPrefixOf pat (c :: cs) then
      py_delete pat ((c :: cs).drop pat.length)
    else c :: py_delete pat cs
termination_by s.length
decreasing_by
  · rename_i h
    simp only [List.length_drop, List.length_cons]
    have hp : 1 ≤ pat.length := by
      cases hpat : pat with
      | nil => exact absurd hpat h.1
      | cons a l => simp
    omega
  · simp

/-- Python `line.split(":", 1)[1].strip().replace(" 8-Core Processor", "")`:
raises `IndexError` when the line holds no colon. -/
def parse_model_line (line : String) : Except PyErr String :=
  match break_at_char ':' line.data with
  | none => Except.error PyErr.exn
  | some (_, rest) =>
    Except.ok ⟨py_delete " 8-Core Processor".data (strip_chars rest)⟩

/-- The loop of `_get_cpu_name_static`: the first line of the CPU-info source
starting with `"model name"`. -/
def find_model_line : List String → Option String
  | [] => none
  | l :: ls => if py_startswith l "model name" then some l else find_model_line ls

/-- `TelemetryCollector._get_cpu_name_static`: parses the model-name line out
of `/proc/cpuinfo` (given here as the lines of the file, or an exception when
opening or reading raises). A missing model-name line yields `"Unknown CPU"`;
any exception is caught and yields the literal `"Unkown CPU"` (sic, as written
in the source). -/
def get_cpu_name_static (cpuinfo : Except PyErr (List String)) : String :=
  match cpuinfo with
  | Except.error _ => "Unkown CPU"
  | Except.ok lines =>
    match find_model_line lines with
    | none => "Unknown CPU"
    | some l =>
      match parse_model_line l with
      | Except.error _ => "Unkown CPU"
      | Except.ok name => name

/-- C7: the code is wrong on its throw path. When the CPU-info source contains
no model-name line the fallback is `"Unknown CPU"` as claimed, but when
reading the source raises, the fallback is the misspelled `"Unkown CPU"`,
which differs from the documented `"Unknown CPU"` sentinel (the success path
of the very same function spells it correctly, so the intent is clear). -/
theorem c7_unknown_cpu_typo :
    get_cpu_name_static (Except.ok ["processor : 0"]) = "Unknown CPU"
    ∧ get_cpu_name_static (Except.error PyErr.exn) = "Unkown CPU"
    ∧ "Unkown CPU" ≠ "Unknown CPU" := by
  refine ⟨by decide, by decide, by decide⟩

/-- The `CPUMetrics` dataclass. -/
structure CPUMetrics where
  name : String
  temperature : Option ℚ
  usage_percent : ℚ
  core_usage : List ℚ
  frequency : ℚ
deriving DecidableEq, Repr

/-- Result object of `psutil.cpu_freq()` (may be `None`). -/
structure CpuFreq where
  current : ℚ
deriving DecidableEq, Repr

/-- The OS primitives invoked by `collect_cpu_metrics`: the CPU-info source,
the ordered candidate temperature-sensor reads (raw millidegrees; an error
stands for the caught file/parse failures), and the psutil calls. -/
structure CpuEnv where
  cpuinfo : Except PyErr (List String)
  temp_reads : List (Except PyErr ℤ)
  cpu_percent : Except PyErr ℚ
  cpu_percent_percpu : Except PyErr (List ℚ)
  cpu_freq : Except PyErr (Option CpuFreq)

/-- `TelemetryCollector._get_cpu_temperature`: probes the candidate sensor
files in order, skipping failed reads, converting millidegrees to degrees, and
accepting the first value in the plausible range 0–120 °C; `none` otherwise. -/
def get_cpu_temperature : List (Except PyErr ℤ) → Option ℚ
  | [] => none
  | Except.error _ :: rest => get_cpu_temperature rest
  | Except.ok raw :: rest =>
    let c : ℚ := (raw : ℚ) / 1000
    if 0 ≤ c ∧ c ≤ 120 then some c else get_cpu_temperature rest

/-- The try-block body of `collect_cpu_metrics`: name from cache (fallback to
the live parse), fresh temperature, usage, per-core usage and frequency; any
psutil exception escapes to the caller of the body. -/
def cpu_body (cache : StaticCache) (env : CpuEnv) : Except PyErr CPUMetrics :=
  let cpu_name := pyOrStr cache.cpu_name (get_cpu_name_static env.cpuinfo)
  let temperature := get_cpu_temperature env.temp_reads
  match env.cpu_percent with
  | Except.error e => Except.error e
  | Except.ok cpu_percent =>
    match env.cpu_percent_percpu with
    | Except.error e => Except.error e
    | Except.ok core_usage =>
      match env.cpu_freq with
      | Except.error e => Except.error e
      | Except.ok freq =>
        Except.ok
          { name := cpu_name
            temperature := temperature
            usage_percent := cpu_percent
            core_usage := core_usage
            frequency := match freq with | some f => f.current | none => 0 }

/-- `TelemetryCollector.collect_cpu_metrics`: the body wrapped in the
boundary `try/except` that converts any exception into the all-default
`CPUMetrics` — the reader itself never raises. -/
def collect_cpu_metrics (cache : StaticCache) (env : CpuEnv) :
    Except PyErr CPUMetrics :=
  Except.ok
    (match cpu_body cache env with
      | Except.ok m => m
      | Except.error _ =>
        { name := "Unknown", temperature := none, usage_percent := 0
          core_usage := [], frequency := 0 })

/-- `GPUVendor.get_name`: vendor name from the vendor-id string, with the
three catalogued vendors and the fallback of the source. -/
def GPUVendor_get_name (vendor_id : String) : String :=
  if vendor_id = "0x1002" then "AMD"
  else if vendor_id = "0x10de" then "NVIDIA"
  else if vendor_id = "0x8086" then "INTEL"
  else "Unknown Vendor (" ++ vendor_id ++ ")"

/-- Python `table[key]` presence lookup on a literal dict. -/
def lookup_table : List (String × String) → String → Option String
  | [], _ => none
  | (k, v) :: rest, key => if k = key then some v else lookup_table rest key

/-- The `AMD_DEVICES` dictionary. -/
def AMD_DEVICES : List (String × String) :=
  [("0x164e", "Radeon RX 7900 XTX"), ("0x164d", "Radeon RX 7900 XT"),
   ("0x164c", "Radeon RX 7900 GRE"), ("0x15dd", "Radeon RX 6900 XT"),
   ("0x15dc", "Radeon RX 6800 XT"), ("0x15db", "Radeon RX 6800"),
   ("0x1638", "Radeon RX 6700 XT"), ("0x163f", "Radeon RX 6700"),
   ("0x1681", "Radeon RX 6600 XT"), ("0x1679", "Radeon RX 6600")]

/-- The `NVIDIA_DEVICES` dictionary. -/
def NVIDIA_DEVICES : List (String × String) :=
  [("0x2684", "GeForce RTX 4090"), ("0x2682", "GeForce RTX 4080"),
   ("0x2704", "GeForce RTX 4070 Ti"), ("0x2783", "GeForce RTX 4070"),
   ("0x2544", "GeForce RTX 3060"), ("0x220a", "GeForce RTX 3080"),
   ("0x2206", "GeForce RTX 3080 Ti"), ("0x2208", "GeForce RTX 3070 Ti"),
   ("0x2204", "GeForce RTX 3070")]

/-- Python truthiness of an optional string (`None` and `""` are falsy). -/
def pyTruthyStr : Option String → Bool
  | some s => s ≠ ""
  | none => false

/-- `TelemetryCollector._get_gpu_name_from_device_ids`: the vendor and device
id arguments are the stripped contents of the two sysfs files, or `none` when
reading one of them raised a caught exception. Mirrors the
`if vendor_id and device_id` chain of the source. -/
def get_gpu_name_from_device_ids (vendor_id device_id : Option String) : String :=
  if pyTruthyStr vendor_id && pyTruthyStr device_id then
    let v := vendor_id.getD ""
    let d := device_id.getD ""
    let vendor_name := GPUVendor_get_name v
    match (if v = "0x1002" then lookup_table AMD_DEVICES d else none) with
    | some n => "AMD " ++ n
    | none =>
      match (if v = "0x10de" then lookup_table NVIDIA_DEVICES d else none) with
      | some n => "NVIDIA " ++ n
      | none => vendor_name ++ " GPU (Device: " ++ d ++ ")"
  else "Unknown GPU"

/-- C6: the GPU-name lookup contract. A catalogued (vendor, device) pair gives
`"<Vendor> <Device>"`; a readable pair whose device is missing from the
catalogue of its vendor gives `"<Vendor> GPU (Device: <device_id>)"`; an unreadable vendor
or device gives `"Unknown GPU"`; and the three concrete examples of the spec
evaluate as claimed. -/
theorem c6_gpu_name_lookup :
    (∀ d n, lookup_table AMD_DEVICES d = some n →
      get_gpu_name_from_device_ids (some "0x1002") (some d) = "AMD " ++ n)
    ∧ (∀ d n, lookup_table NVIDIA_DEVICES d = some n →
      get_gpu_name_from_device_ids (some "0x10de") (some d) = "NVIDIA " ++ n)
    ∧ (∀ v d, v ≠ "" → d ≠ "" →
      (v = "0x1002" → lookup_table AMD_DEVICES d = none) →
      (v = "0x10de" → lookup_table NVIDIA_DEVICES d = none) →
      get_gpu_name_from_device_ids (some v) (some d) =
        GPUVendor_get_name v ++ " GPU (Device: " ++ d ++ ")")
    ∧ (∀ d, get_gpu_name_from_device_ids none d = "Unknown GPU")
    ∧ (∀ v, get_gpu_name_from_device_ids v none = "Unknown GPU")
    ∧ get_gpu_name_from_device_ids (some "0x1002") (some "0x164e")
        = "AMD Radeon RX 7900 XTX"
    ∧ get_gpu_name_from_device_ids (some "0x1002") (some "0xffff")
        = "AMD GPU (Device: 0xffff)"
    ∧ get_gpu_name_from_device_ids none none = "Unknown GPU" := by
  refine ⟨?_, ?_, ?_, ?_, ?_, by decide, by decide, by decide⟩
  · intro d n h
    have hd : d ≠ "" := by
      intro he
      rw [he] at h
      simp [lookup_table, AMD_DEVICES] at h
    simp [get_gpu_name_from_device_ids, pyTruthyStr, hd, h]
  · intro d n h
    have hd : d ≠ "" := by
      intro he
      rw [he] at h
      simp [lookup_table, NVIDIA_DEVICES] at h
    simp [get_gpu_name_from_device_ids, pyTruthyStr, hd, h]
  · intro v d hv hd ham hnv
    simp only [get_gpu_name_from_device_ids, pyTruthyStr]
    rw [if_pos]
    · rcases eq_or_ne v "0x1002" with h2 | h2
      · simp [h2, ham h2]
      · rcases eq_or_ne v "0x10de" with h3 | h3
        · simp [h3, hnv h3, h2]
        · simp [h2, h3]
    · simp [hv, hd]
  · intro d
    simp [get_gpu_name_from_device_ids, pyTruthyStr]
  · intro v
    cases v <;> simp [get_gpu_name_from_device_ids, pyTruthyStr]

/-- C6 (witness): the general conjuncts of the lookup theorem instantiated at
concrete inputs from the examples of the spec. -/
theorem c6_gpu_name_lookup_witness :
    get_gpu_name_from_device_ids (some "0x1002") (some "0x164d")
      = "AMD " ++ "Radeon RX 7900 XT"
    ∧ get_gpu_name_from_device_ids (some "0x8086") (some "0x1234")
      = GPUVendor_get_name "0x8086" ++ " GPU (Device: " ++ "0x1234" ++ ")"
    ∧ get_gpu_name_from_device_ids none (some "0x164e") = "Unknown GPU" := by
  refine ⟨c6_gpu_name_lookup.1 "0x164d" "Radeon RX 7900 XT" (by decide),
    c6_gpu_name_lookup.2.2.1 "0x8086" "0x1234" (by decide) (by decide)
      (fun h => by simp at h) (fun h => by simp at h),
    c6_gpu_name_lookup.2.2.2.1 (some "0x164e")⟩

/-- Python `line.split()`: whitespace-separated tokens, empty tokens pruned. -/
def py_split_ws_aux : List Char → List Char → List (List Char)
  | cur, [] => if cur = [] then [] else [cur.reverse]
  | cur, c :: cs =>
    if c.isWhitespace then
      if cur = [] then py_split_ws_aux [] cs
      else cur.reverse :: py_split_ws_aux [] cs
    else py_split_ws_aux (c :: cur) cs

/-- Python `line.split()` on a string. -/
def py_split_ws (s : String) : List String :=
  (py_split_ws_aux [] s.data).map (fun l => ⟨l⟩)

/-- The dictionary built by `_get_amdgpu_metrics`: one optional slot per
dynamic GPU counter. -/
structure GpuData where
  temperature : Option ℚ := none
  usage : Option ℚ := none
  vram_used : Option ℤ := none
  fan_speed : Option ℤ := none
  clock_speed : Option String := none
deriving DecidableEq, Repr

/-- Python truthiness of the `gpu_data` dictionary: falsy exactly when no
counter was stored. -/
def GpuData.isEmpty (d : GpuData) : Bool :=
  d.temperature.isNone && d.usage.isNone && d.vram_used.isNone
    && d.fan_speed.isNone && d.clock_speed.isNone

/-- The sysfs reads performed by `_get_amdgpu_metrics`. A `none` read stands
for one of the caught per-field failures (missing file, permission, parse). -/
structure GpuEnv where
  temp_reads : List (Option ℤ)
  gpu_busy : Option ℚ
  vram_used : Option ℤ
  fan_reads : List (Option ℤ)
  sclk : Option (List String)

/-- The temperature probe loop of `_get_amdgpu_metrics`: first successfully
read candidate whose value, converted from millidegrees, lies in 0–120 °C. -/
def first_temp_in_range : List (Option ℤ) → Option ℚ
  | [] => none
  | none :: rest => first_temp_in_range rest
  | some raw :: rest =>
    let c : ℚ := (raw : ℚ) / 1000
    if 0 ≤ c ∧ c ≤ 120 then some c else first_temp_in_range rest

/-- The fan probe loop of `_get_amdgpu_metrics`: first successful read. -/
def first_read : List (Option ℤ) → Option ℤ
  | [] => none
  | none :: rest => first_read rest
  | some v :: _ => some v

/-- The clock-state parse loop of `_get_amdgpu_metrics`: the first line
containing `*` yields `line.split()[1]`, which raises `IndexError` — not in
the caught exception tuple — when the line has fewer than two tokens. -/
def parse_clock_lines : List String → Except PyErr (Option String)
  | [] => Except.ok none
  | line :: rest =>
    if line.data.contains '*' then
      match (py_split_ws line).drop 1 with
      | [] => Except.error PyErr.exn
      | tok :: _ => Except.ok (some tok)
    else parse_clock_lines rest

/-- The clock-speed field: the `pp_dpm_sclk` read either fails with a caught
exception (`none`, field simply absent) or yields lines to parse. -/
def clock_read (env : GpuEnv) : Except PyErr (Option String) :=
  match env.sclk with
  | none => Except.ok none
  | some lines => parse_clock_lines lines

/-- `TelemetryCollector._get_amdgpu_metrics`: builds the five optional
counters independently; an uncaught exception inside the body (the clock
`IndexError`) is swallowed by the outer boundary and yields `None`; otherwise
the dictionary is returned when nonempty, `None` when empty. -/
def get_amdgpu_metrics (env : GpuEnv) : Option GpuData :=
  match clock_read env with
  | Except.error _ => none
  | Except.ok clock =>
    let d : GpuData :=
      { temperature := first_temp_in_range env.temp_reads
        usage := env.gpu_busy
        vram_used := env.vram_used.map (fun b => Int.fdiv b (1024 * 1024))
        fan_speed := first_read env.fan_reads
        clock_speed := clock }
    if d.isEmpty then none else some d

/-- The `GPUMetrics` dataclass. The `name` slot is typed `str` in the source
but receives the raw cache slot at runtime, which is `None` while the cache is
uninitialized; it is therefore optional here. -/
structure GPUMetrics where
  name : Option String
  temperature : Option ℚ
  usage_percent : Option ℚ
  memory_used : Option ℤ
  memory_total : ℤ
  fan_speed : Option ℤ
  clock_speed : Option String
deriving DecidableEq, Repr

/-- `TelemetryCollector.collect_gpu_metrics`: combines the cached name (the
`"gpu_name"` key always exists, so the `"Unknown GPU"` default of `dict.get` is
never taken and an uninitialized cache passes `None` through) and cached total
VRAM (falling back to 24560) with the freshly read dynamic counters; returns
`None` exactly when `_get_amdgpu_metrics` produced nothing; the outer
`try/except` makes the reader itself never raise. -/
def collect_gpu_metrics (cache : StaticCache) (env : GpuEnv) :
    Except PyErr (Option GPUMetrics) :=
  Except.ok
    (let gpu_name := cache.gpu_name
     let total_vram := pyOrInt cache.gpu_total_vram 24560
     match get_amdgpu_metrics env with
     | some d => some
        { name := gpu_name
          temperature := d.temperature
          usage_percent := d.usage
          memory_used := d.vram_used
          memory_total := total_vram
          fan_speed := d.fan_speed
          clock_speed := d.clock_speed }
     | none => none)

/-- C9 (counterexample): a state where the GPU temperature is perfectly
readable (45 °C) but the clock-state listing holds the malformed starred line
`"*"` makes the reader return an absent result, even though at least one of
the five dynamic counters can be read — the `IndexError` raised by
`line.split()[1]` escapes the per-field handlers and the outer boundary
discards the whole dictionary. -/
theorem c9_absent_counterexample :
    collect_gpu_metrics {}
      { temp_reads := [some 45000], gpu_busy := none, vram_used := none
        fan_reads := [], sclk := some ["*"] } = Except.ok none
    ∧ first_temp_in_range [some 45000] = some 45 := by
  constructor
  · rfl
  · simp only [first_temp_in_range]
    norm_num

/-- C9 (amended): provided the clock-state parse does not raise (no starred
line with fewer than two tokens), the GPU reader returns an absent result
exactly when none of the five dynamic counters yields a value, and presence is
independent of the whole static cache — in particular of the GPU name, whether
it is populated, `"Unknown GPU"`, or still `None`. When the parse raises, the
result is absent regardless of the other counters. -/
theorem c9_absent_iff_no_counters (cache : StaticCache) (env : GpuEnv)
    (clk : Option String) (hclk : clock_read env = Except.ok clk) :
    (collect_gpu_metrics cache env = Except.ok none ↔
      (first_temp_in_range env.temp_reads = none ∧ env.gpu_busy = none
        ∧ env.vram_used = none ∧ first_read env.fan_reads = none ∧ clk = none))
    ∧ (∀ cache2 : StaticCache,
        collect_gpu_metrics cache env = Except.ok none ↔
        collect_gpu_metrics cache2 env = Except.ok none) := by
  have hite : ∀ d : GpuData, ((if d.isEmpty then none else some d) = none)
      ↔ d.isEmpty = true := by
    intro d
    cases hb : d.isEmpty <;> simp [hb]
  have hmain : ∀ c : StaticCache,
      collect_gpu_metrics c env = Except.ok none ↔
      (first_temp_in_range env.temp_reads = none ∧ env.gpu_busy = none
        ∧ env.vram_used = none ∧ first_read env.fan_reads = none ∧ clk = none) := by
    intro c
    have hio : collect_gpu_metrics c env = Except.ok none ↔
        get_amdgpu_metrics env = none := by
      simp only [collect_gpu_metrics]
      cases hg : get_amdgpu_metrics env <;> simp [hg]
    rw [hio]
    simp only [get_amdgpu_metrics, hclk]
    rw [hite]
    simp [GpuData.isEmpty, Option.isNone_iff_eq_none, Option.map_eq_none',
      and_assoc]
  exact ⟨hmain cache, fun cache2 => (hmain cache).trans (hmain cache2).symm⟩

/-- C9 (witness): the amended theorem at a concrete input — a readable busy
percent with an empty cache (GPU name still `None`) yields a present result,
matching the right-hand side of the equivalence being false. -/
theorem c9_absent_iff_no_counters_witness :
    (collect_gpu_metrics {}
        { temp_reads := [], gpu_busy := some 80, vram_used := none
          fan_reads := [], sclk := none } = Except.ok none ↔
      (first_temp_in_range [] = none ∧ (some (80 : ℚ) = none)
        ∧ (none : Option ℤ) = none ∧ first_read [] = none
        ∧ (none : Option String) = none))
    ∧ collect_gpu_metrics {}
        { temp_reads := [], gpu_busy := some 80, vram_used := none
          fan_reads := [], sclk := none } ≠ Except.ok none := by
  constructor
  · exact (c9_absent_iff_no_counters {}
      { temp_reads := [], gpu_busy := some 80, vram_used := none
        fan_reads := [], sclk := none } none rfl).1
  · have h := (c9_absent_iff_no_counters {}
      { temp_reads := [], gpu_busy := some 80, vram_used := none
        fan_reads := [], sclk := none } none rfl).1
    intro hc
    simpa using (h.mp hc).2.1

/-- Per-interface counters returned by `psutil.net_io_counters(pernic=True)`. -/
structure NetIOCounters where
  bytes_sent : ℤ
  bytes_recv : ℤ
  packets_sent : ℤ
  packets_recv : ℤ
deriving DecidableEq, Repr

/-- The `NetworkMetrics` dataclass. -/
structure NetworkMetrics where
  interface : String
  ip_address : Option String
  bytes_sent : ℤ
  bytes_received : ℤ
  packets_sent : ℤ
  packets_received : ℤ
  speed_upload : ℚ
  speed_download : ℚ
deriving DecidableEq, Repr

/-- The `previous_network_stats` dictionary: interface name to the stored
(bytes_sent, bytes_recv) pair. -/
abbrev PrevStats := List (String × ℤ × ℤ)

/-- Dictionary lookup in the rate-sampler state. -/
def lookup_prev : PrevStats → String → Option (ℤ × ℤ)
  | [], _ => none
  | (n, p) :: rest, name => if n = name then some p else lookup_prev rest name

/-- Dictionary overwrite in the rate-sampler state
(`self.previous_network_stats[name] = {...}`). -/
def store_prev : PrevStats → String → ℤ × ℤ → PrevStats
  | [], name, p => [(name, p)]
  | (n, q) :: rest, name, p =>
    if n = name then (n, p) :: rest else (n, q) :: store_prev rest name p

/-- The mutable collector state read and written by the network reader. -/
structure NetState where
  previous_network_stats : PrevStats
  previous_time : ℚ
deriving DecidableEq, Repr

/-- The output record of one loop iteration: cumulative counters copied through,
rates computed from the stored sample when present and the elapsed time is
positive, and 0.0 on the first observation of the interface. -/
def network_entry (dt : ℚ) (prev : PrevStats) (ip : String → Option String)
    (name : String) (stats : NetIOCounters) : NetworkMetrics :=
  let speeds : ℚ × ℚ :=
    match lookup_prev prev name with
    | some (ps, pr) =>
      if 0 < dt then
        (((stats.bytes_sent - ps : ℤ) : ℚ) / dt, ((stats.bytes_recv - pr : ℤ) : ℚ) / dt)
      else (0, 0)
    | none => (0, 0)
  { interface := name
    ip_address := ip name
    bytes_sent := stats.bytes_sent
    bytes_received := stats.bytes_recv
    packets_sent := stats.packets_sent
    packets_received := stats.packets_recv
    speed_upload := speeds.1
    speed_download := speeds.2 }

/-- The interface loop of `collect_network_metrics`: loopback is skipped
before anything is stored; every other interface produces an output record and
unconditionally overwrites its stored counters. -/
def collect_network_aux (dt : ℚ) (ip : String → Option String) :
    PrevStats → List (String × NetIOCounters) → List NetworkMetrics × PrevStats
  | prev, [] => ([], prev)
  | prev, (name, stats) :: rest =>
    if name = "lo" then collect_network_aux dt ip prev rest
    else
      let m := network_entry dt prev ip name stats
      let prev2 := store_prev prev name (stats.bytes_sent, stats.bytes_recv)
      let r := collect_network_aux dt ip prev2 rest
      (m :: r.1, r.2)

/-- `TelemetryCollector.collect_network_metrics`: computes the elapsed time
against the stored previous time, walks the interfaces, and finally advances
the previous time to now. A raising `psutil.net_io_counters` propagates (the
reader has no try/except) and leaves the state untouched. -/
def collect_network_metrics (st : NetState) (now : ℚ)
    (ip : String → Option String)
    (net_stats : Except PyErr (List (String × NetIOCounters))) :
    Except PyErr (List NetworkMetrics × NetState) :=
  match net_stats with
  | Except.error e => Except.error e
  | Except.ok stats =>
    let dt := now - st.previous_time
    let r := collect_network_aux dt ip st.previous_network_stats stats
    Except.ok (r.1, { previous_network_stats := r.2, previous_time := now })

theorem lookup_store_same (prev : PrevStats) (name : String) (p : ℤ × ℤ) :
    lookup_prev (store_prev prev name p) name = some p := by
  induction prev with
  | nil => simp [store_prev, lookup_prev]
  | cons hd tl ih =>
    obtain ⟨n, q⟩ := hd
    by_cases h : n = name <;> simp [store_prev, lookup_prev, h, ih]

theorem lookup_store_other (prev : PrevStats) (n name : String) (p : ℤ × ℤ)
    (h : n ≠ name) :
    lookup_prev (store_prev prev n p) name = lookup_prev prev name := by
  induction prev with
  | nil => simp [store_prev, lookup_prev, h]
  | cons hd tl ih =>
    obtain ⟨n2, q⟩ := hd
    by_cases h2 : n2 = n
    · subst h2
      simp [store_prev, lookup_prev, h]
    · by_cases h3 : n2 = name <;>
        simp [store_prev, lookup_prev, h2, h3, ih, Ne.symm h]

theorem aux_lookup_not_mem (dt : ℚ) (ip : String → Option String)
    (name : String) :
    ∀ (l : List (String × NetIOCounters)) (prev : PrevStats),
      name ∉ l.map Prod.fst →
      lookup_prev (collect_network_aux dt ip prev l).2 name =
        lookup_prev prev name := by
  intro l
  induction l with
  | nil => intro prev _; simp [collect_network_aux]
  | cons hd tl ih =>
    intro prev hmem
    obtain ⟨n, stats⟩ := hd
    simp only [List.map_cons, List.mem_cons, not_or] at hmem
    by_cases hlo : n = "lo"
    · simpa [collect_network_aux, hlo] using ih prev hmem.2
    · have : lookup_prev
          (collect_network_aux dt ip (store_prev prev n (stats.bytes_sent, stats.bytes_recv)) tl).2 name
          = lookup_prev (store_prev prev n (stats.bytes_sent, stats.bytes_recv)) name :=
        ih _ hmem.2
      simpa [collect_network_aux, hlo,
        lookup_store_other prev n name _ (fun he => hmem.1 he.symm)] using this

theorem aux_lookup_lo (dt : ℚ) (ip : String → Option String) :
    ∀ (l : List (String × NetIOCounters)) (prev : PrevStats),
      lookup_prev (collect_network_aux dt ip prev l).2 "lo" =
        lookup_prev prev "lo" := by
  intro l
  induction l with
  | nil => intro prev; simp [collect_network_aux]
  | cons hd tl ih =>
    intro prev
    obtain ⟨n, stats⟩ := hd
    by_cases hlo : n = "lo"
    · simpa [collect_network_aux, hlo] using ih prev
    · simpa [collect_network_aux, hlo, lookup_store_other prev n "lo" _ hlo]
        using ih (store_prev prev n (stats.bytes_sent, stats.bytes_recv))

theorem aux_no_lo (dt : ℚ) (ip : String → Option String) :
    ∀ (l : List (String × NetIOCounters)) (prev : PrevStats),
      ∀ m ∈ (collect_network_aux dt ip prev l).1, m.interface ≠ "lo" := by
  intro l
  induction l with
  | nil => intro prev m hm; simp [collect_network_aux] at hm
  | cons hd tl ih =>
    intro prev m hm
    obtain ⟨n, stats⟩ := hd
    by_cases hlo : n = "lo"
    · exact ih prev m (by simpa [collect_network_aux, hlo] using hm)
    · simp only [collect_network_aux, hlo, if_neg, ite_false] at hm
      rcases List.mem_cons.mp hm with h | h
      · subst h
        simpa [network_entry] using hlo
      · exact ih _ m h

theorem aux_processes (dt : ℚ) (ip : String → Option String)
    (name : String) (stats : NetIOCounters) (hlo : name ≠ "lo") :
    ∀ (l : List (String × NetIOCounters)) (prev : PrevStats),
      (l.map Prod.fst).Nodup → (name, stats) ∈ l →
      network_entry dt prev ip name stats ∈ (collect_network_aux dt ip prev l).1
      ∧ lookup_prev (collect_network_aux dt ip prev l).2 name =
          some (stats.bytes_sent, stats.bytes_recv) := by
  intro l
  induction l with
  | nil => intro prev _ hmem; simp at hmem
  | cons hd tl ih =>
    intro prev hnd hmem
    obtain ⟨n, s2⟩ := hd
    simp only [List.map_cons, List.nodup_cons] at hnd
    rcases List.mem_cons.mp hmem with heq | hmem2
    · injection heq with h1 h2
      subst h1; subst h2
      simp only [collect_network_aux, hlo, ite_false, if_neg]
      constructor
      · exact List.mem_cons_self _ _
      · have hnm : name ∉ tl.map Prod.fst := hnd.1
        rw [aux_lookup_not_mem dt ip name tl _ hnm]
        exact lookup_store_same prev name _
    · have hn_ne : n ≠ name := by
        intro he
        exact hnd.1 (he ▸ (List.mem_map.mpr ⟨(name, stats), hmem2, rfl⟩))
      by_cases hnlo : n = "lo"
      · have := ih prev hnd.2 hmem2
        simpa [collect_network_aux, hnlo] using this
      · have hthis := ih (store_prev prev n (s2.bytes_sent, s2.bytes_recv)) hnd.2 hmem2
        have hcong : network_entry dt (store_prev prev n (s2.bytes_sent, s2.bytes_recv)) ip name stats
            = network_entry dt prev ip name stats := by
          simp [network_entry, lookup_store_other prev n name _ hn_ne]
        rw [hcong] at hthis
        simp only [collect_network_aux, hnlo, ite_false, if_neg]
        exact ⟨List.mem_cons_of_mem _ hthis.1, hthis.2⟩

/-- C2: for every non-loopback interface present in a collection call over
distinct interface names, the final state holds the current counters for that
interface and its previous time is advanced to now; the output record for the
interface carries rate `(current − previous)/elapsed` in both directions when
a previous sample was stored and the elapsed time is positive, and rate 0 on
the first observation of the interface. -/
theorem c2_network_rates (st : NetState) (now : ℚ) (ip : String → Option String)
    (stats : List (String × NetIOCounters)) (name : String) (s : NetIOCounters)
    (hnd : (stats.map Prod.fst).Nodup) (hmem : (name, s) ∈ stats)
    (hlo : name ≠ "lo") :
    ∀ out st2, collect_network_metrics st now ip (Except.ok stats) = Except.ok (out, st2) →
      st2.previous_time = now
      ∧ lookup_prev st2.previous_network_stats name = some (s.bytes_sent, s.bytes_recv)
      ∧ (∀ ps pr, lookup_prev st.previous_network_stats name = some (ps, pr) →
          0 < now - st.previous_time →
          ∃ m ∈ out, m.interface = name
            ∧ m.speed_upload = ((s.bytes_sent - ps : ℤ) : ℚ) / (now - st.previous_time)
            ∧ m.speed_download = ((s.bytes_recv - pr : ℤ) : ℚ) / (now - st.previous_time))
      ∧ (lookup_prev st.previous_network_stats name = none →
          ∃ m ∈ out, m.interface = name ∧ m.speed_upload = 0 ∧ m.speed_download = 0) := by
  intro out st2 hcall
  have hp := aux_processes (now - st.previous_time) ip name s hlo stats
    st.previous_network_stats hnd hmem
  simp only [collect_network_metrics, Except.ok.injEq, Prod.mk.injEq] at hcall
  obtain ⟨hout, hst2⟩ := hcall
  refine ⟨by rw [← hst2], ?_, ?_, ?_⟩
  · rw [← hst2]
    exact hp.2
  · intro ps pr hprev hdt
    refine ⟨network_entry (now - st.previous_time) st.previous_network_stats ip name s,
      by rw [← hout]; exact hp.1, ?_⟩
    simp [network_entry, hprev, hdt]
  · intro hprev
    refine ⟨network_entry (now - st.previous_time) st.previous_network_stats ip name s,
      by rw [← hout]; exact hp.1, ?_⟩
    simp [network_entry, hprev]

/-- C2 (witness): a two-interface call (including loopback) at concrete
counters; the eth0 record carries upload rate (300−100)/2 = 100 and download
rate (600−200)/2 = 200, and the final state stores (300, 600) at eth0 with the
previous time advanced to 2. -/
theorem c2_network_rates_witness :
    lookup_prev [("eth0", ((100 : ℤ), (200 : ℤ)))] "eth0" = some (100, 200)
    ∧ (0 : ℚ) < 2 - 0
    ∧ (∀ out st2,
      collect_network_metrics
          { previous_network_stats := [("eth0", (100, 200))], previous_time := 0 }
          2 (fun _ => none)
          (Except.ok [("eth0", { bytes_sent := 300, bytes_recv := 600
                                 packets_sent := 7, packets_recv := 8 }),
                      ("lo", { bytes_sent := 1, bytes_recv := 1
                               packets_sent := 1, packets_recv := 1 })])
        = Except.ok (out, st2) →
      st2.previous_time = 2
      ∧ lookup_prev st2.previous_network_stats "eth0" = some (300, 600)
      ∧ (∀ ps pr, lookup_prev [("eth0", ((100 : ℤ), (200 : ℤ)))] "eth0" = some (ps, pr) →
          0 < (2 : ℚ) - 0 →
          ∃ m ∈ out, m.interface = "eth0"
            ∧ m.speed_upload = (((300 : ℤ) - ps : ℤ) : ℚ) / ((2 : ℚ) - 0)
            ∧ m.speed_download = (((600 : ℤ) - pr : ℤ) : ℚ) / ((2 : ℚ) - 0))
      ∧ (lookup_prev [("eth0", ((100 : ℤ), (200 : ℤ)))] "eth0" = none →
          ∃ m ∈ out, m.interface = "eth0" ∧ m.speed_upload = 0 ∧ m.speed_download = 0)) := by
  refine ⟨by decide, by norm_num, ?_⟩
  exact c2_network_rates
    { previous_network_stats := [("eth0", (100, 200))], previous_time := 0 }
    2 (fun _ => none)
    [("eth0", { bytes_sent := 300, bytes_recv := 600, packets_sent := 7, packets_recv := 8 }),
     ("lo", { bytes_sent := 1, bytes_recv := 1, packets_sent := 1, packets_recv := 1 })]
    "eth0"
    { bytes_sent := 300, bytes_recv := 600, packets_sent := 7, packets_recv := 8 }
    (by decide) (by simp) (by decide)

/-- C8: for every input interface set containing the loopback interface, the
output list holds no loopback entry and the rate-sampler state is never
written at the loopback key (its stored counters, absent or present from
before, are exactly as they were). -/
theorem c8_loopback_excluded (st : NetState) (now : ℚ)
    (ip : String → Option String) (stats : List (String × NetIOCounters))
    (s : NetIOCounters) (_hmem : ("lo", s) ∈ stats) :
    ∀ out st2, collect_network_metrics st now ip (Except.ok stats) = Except.ok (out, st2) →
      (∀ m ∈ out, m.interface ≠ "lo")
      ∧ lookup_prev st2.previous_network_stats "lo" =
          lookup_prev st.previous_network_stats "lo" := by
  intro out st2 hcall
  simp only [collect_network_metrics, Except.ok.injEq, Prod.mk.injEq] at hcall
  obtain ⟨hout, hst2⟩ := hcall
  constructor
  · intro m hm
    exact aux_no_lo (now - st.previous_time) ip stats st.previous_network_stats m
      (by rw [hout]; exact hm)
  · rw [← hst2]
    exact aux_lookup_lo (now - st.previous_time) ip stats st.previous_network_stats

/-- C8 (witness): the loopback-exclusion theorem at a concrete two-interface
input containing loopback, starting from a sampler state without a loopback
entry; the loopback key stays absent. -/
theorem c8_loopback_excluded_witness :
    ("lo", ({ bytes_sent := 1, bytes_recv := 2
              packets_sent := 3, packets_recv := 4 } : NetIOCounters))
      ∈ [(("lo" : String), ({ bytes_sent := 1, bytes_recv := 2
                              packets_sent := 3, packets_recv := 4 } : NetIOCounters)),
         ("eth0", { bytes_sent := 5, bytes_recv := 6
                    packets_sent := 7, packets_recv := 8 })]
    ∧ (∀ out st2,
      collect_network_metrics
          { previous_network_stats := [], previous_time := 0 }
          1 (fun _ => none)
          (Except.ok [("lo", { bytes_sent := 1, bytes_recv := 2
                               packets_sent := 3, packets_recv := 4 }),
                      ("eth0", { bytes_sent := 5, bytes_recv := 6
                                 packets_sent := 7, packets_recv := 8 })])
        = Except.ok (out, st2) →
      (∀ m ∈ out, m.interface ≠ "lo")
      ∧ lookup_prev st2.previous_network_stats "lo" = lookup_prev [] "lo") := by
  refine ⟨by simp, ?_⟩
  exact c8_loopback_excluded
    { previous_network_stats := [], previous_time := 0 } 1 (fun _ => none)
    [("lo", { bytes_sent := 1, bytes_recv := 2, packets_sent := 3, packets_recv := 4 }),
     ("eth0", { bytes_sent := 5, bytes_recv := 6, packets_sent := 7, packets_recv := 8 })]
    { bytes_sent := 1, bytes_recv := 2, packets_sent := 3, packets_recv := 4 }
    (by simp)

/-- Outcome of `subprocess.run(["lsb_release", "-d"], ..., timeout=5)`:
a finished process with its return code and stdout, a `TimeoutExpired` (in the
caught tuple), or another `OSError` such as a missing binary (not caught). -/
inductive SubprocResult where
  | finished (returncode : ℤ) (stdout : String)
  | timeout
  | oserror
deriving DecidableEq, Repr

/-- `TelemetryCollector._get_os_name`: on success parses field 1 of the
tab-split description (`IndexError` when stdout holds no tab propagates), on
nonzero exit returns `"Unknown OS"`, on timeout returns the sentinel error
string, and on an uncaught exception raises. -/
def get_os_name (r : SubprocResult) : Except PyErr String :=
  match r with
  | SubprocResult.finished rc out =>
    if rc = 0 then
      match (py_split_char (Char.ofNat 9) out.data).drop 1 with
      | [] => Except.error PyErr.exn
      | d :: _ => Except.ok ⟨strip_chars d⟩
    else Except.ok "Unknown OS"
  | SubprocResult.timeout =>
    Except.ok "Exception: OS subprocess command did not execute properly"
  | SubprocResult.oserror => Except.error PyErr.exn

/-- The `SystemMetrics` dataclass. -/
structure SystemMetrics where
  hostname : String
  os_name : String
  kernel_version : String
  uptime_seconds : ℤ
  user : String
  boot_time : ℚ
deriving DecidableEq, Repr

/-- The OS primitives invoked by `collect_system_metrics`. -/
structure SystemEnv where
  nodename : Except PyErr String
  lsb_release : SubprocResult
  kernel_release : Except PyErr String
  boot_time : Except PyErr ℚ
  getlogin : Except PyErr String
  now : ℚ

/-- `TelemetryCollector.collect_system_metrics`: cached values preferred (live
reads as truthiness fallbacks), uptime recomputed as `int(now − boot_time)`,
and the user always read live via `os.getlogin()`. The reader has no
`try/except`, so any raising primitive propagates to the caller. -/
def collect_system_metrics (cache : StaticCache) (env : SystemEnv) :
    Except PyErr SystemMetrics :=
  match pyOrStrE cache.hostname env.nodename with
  | Except.error e => Except.error e
  | Except.ok hostname =>
  match pyOrStrE cache.os_name (get_os_name env.lsb_release) with
  | Except.error e => Except.error e
  | Except.ok os_name =>
  match pyOrStrE cache.kernel_version env.kernel_release with
  | Except.error e => Except.error e
  | Except.ok kernel =>
  match pyOrQE cache.boot_time env.boot_time with
  | Except.error e => Except.error e
  | Except.ok bt =>
  match env.getlogin with
  | Except.error e => Except.error e
  | Except.ok user =>
  match pyOrQE cache.boot_time env.boot_time with
  | Except.error e => Except.error e
  | Except.ok bt2 =>
    Except.ok
      { hostname := hostname
        os_name := os_name
        kernel_version := kernel
        uptime_seconds := pyInt (env.now - bt)
        user := user
        boot_time := bt2 }

/-- C3 (counterexample): the memory reader has no boundary `try/except` — in
an environment where `psutil.virtual_memory()` raises, the call propagates the
exception instead of returning any documented default snapshot, refuting the
claim that every one of the five readers catches at its boundary. -/
theorem c3_memory_propagates_counterexample :
    collect_memory_metrics {}
      { virtual_memory := Except.error PyErr.exn
        disk_usage := Except.error PyErr.exn } = Except.error PyErr.exn := by
  rfl

/-- C3 (amended): only the CPU and GPU readers catch unexpected errors at
their boundary (they never raise, for every environment and cache state); the
memory, system and network readers have no boundary handler and propagate a
raising primitive to the caller — shown here by concrete environments where
`psutil.virtual_memory()` raises, `os.getlogin()` raises (every other system
primitive healthy), and `psutil.net_io_counters()` raises. -/
theorem c3_reader_boundaries :
    (∀ (cache : StaticCache) (env : CpuEnv),
      exceptIsOk (collect_cpu_metrics cache env) = true)
    ∧ (∀ (cache : StaticCache) (env : GpuEnv),
      exceptIsOk (collect_gpu_metrics cache env) = true)
    ∧ exceptIsOk (collect_memory_metrics {}
        { virtual_memory := Except.error PyErr.exn
          disk_usage := Except.ok { used := 1, total := 2 } }) = false
    ∧ exceptIsOk (collect_system_metrics {}
        { nodename := Except.ok "host"
          lsb_release := SubprocResult.finished 0 "Description:\tUbuntu 22.04"
          kernel_release := Except.ok "6.8.0"
          boot_time := Except.ok 1000
          getlogin := Except.error PyErr.exn
          now := 2000 }) = false
    ∧ exceptIsOk (collect_network_metrics
        { previous_network_stats := [], previous_time := 0 } 1 (fun _ => none)
        (Except.error PyErr.exn)) = false := by
  refine ⟨fun cache env => rfl, fun cache env => rfl, rfl, ?_, rfl⟩
  rfl

/-- The ten static facts cached by `_cache_static_data`, named for counting
resolver invocations. -/
inductive Fact where
  | cpuName | cpuCoreCount | gpuName | gpuTotalVram | totalRam
  | totalDisk | hostname | osName | kernelVersion | bootTime
deriving DecidableEq, Repr

/-- The OS primitives invoked during static-cache initialization. `gpu_vendor`,
`gpu_device` and `vram_total` are `none` when their sysfs read failed with one
of the exceptions those helpers catch internally. -/
structure CacheEnv where
  cpuinfo : Except PyErr (List String)
  cpu_count : Except PyErr ℤ
  gpu_vendor : Option String
  gpu_device : Option String
  vram_total : Option ℤ
  virtual_memory : Except PyErr VirtualMemory
  disk_usage : Except PyErr DiskUsage
  nodename : Except PyErr String
  lsb_release : SubprocResult
  kernel_release : Except PyErr String
  boot_time : Except PyErr ℚ

/-- `TelemetryCollector._get_gpu_total_vram`: bytes from sysfs converted to
MB, all its read/parse failures caught and defaulted to 24560. -/
def get_gpu_total_vram (read : Option ℤ) : ℤ :=
  match read with
  | some b => Int.fdiv b (1024 * 1024)
  | none => 24560

/-- `TelemetryCollector._cache_static_data`: resolves the ten facts in source
order inside a single `try` block, also returning the ordered list of resolver
invocations performed. A raising resolver ends the attempt (the exception is
caught and only printed), leaving every later fact unset; the RAM and disk
totals are written only after both psutil reads succeed, exactly as in the
source. -/
def cache_static_data (env : CacheEnv) (c0 : StaticCache) :
    StaticCache × List Fact :=
  let c1 := { c0 with cpu_name := some (get_cpu_name_static env.cpuinfo) }
  match env.cpu_count with
  | Except.error _ => (c1, [Fact.cpuName, Fact.cpuCoreCount])
  | Except.ok ncc =>
    let c2 := { c1 with
      cpu_core_count := some ncc
      gpu_name := some (get_gpu_name_from_device_ids env.gpu_vendor env.gpu_device)
      gpu_total_vram := some (get_gpu_total_vram env.vram_total) }
    match env.virtual_memory with
    | Except.error _ => (c2, [Fact.cpuName, Fact.cpuCoreCount, Fact.gpuName,
        Fact.gpuTotalVram, Fact.totalRam])
    | Except.ok vm =>
      match env.disk_usage with
      | Except.error _ => (c2, [Fact.cpuName, Fact.cpuCoreCount, Fact.gpuName,
          Fact.gpuTotalVram, Fact.totalRam, Fact.totalDisk])
      | Except.ok du =>
        let c3 := { c2 with total_ram := some vm.total, total_disk := some du.total }
        match env.nodename with
        | Except.error _ => (c3, [Fact.cpuName, Fact.cpuCoreCount, Fact.gpuName,
            Fact.gpuTotalVram, Fact.totalRam, Fact.totalDisk, Fact.hostname])
        | Except.ok hn =>
          let c4 := { c3 with hostname := some hn }
          match get_os_name env.lsb_release with
          | Except.error _ => (c4, [Fact.cpuName, Fact.cpuCoreCount, Fact.gpuName,
              Fact.gpuTotalVram, Fact.totalRam, Fact.totalDisk, Fact.hostname,
              Fact.osName])
          | Except.ok osn =>
            let c5 := { c4 with os_name := some osn }
            match env.kernel_release with
            | Except.error _ => (c5, [Fact.cpuName, Fact.cpuCoreCount, Fact.gpuName,
                Fact.gpuTotalVram, Fact.totalRam, Fact.totalDisk, Fact.hostname,
                Fact.osName, Fact.kernelVersion])
            | Except.ok kr =>
              let c6 := { c5 with kernel_version := some kr }
              match env.boot_time with
              | Except.error _ => (c6, [Fact.cpuName, Fact.cpuCoreCount, Fact.gpuName,
                  Fact.gpuTotalVram, Fact.totalRam, Fact.totalDisk, Fact.hostname,
                  Fact.osName, Fact.kernelVersion, Fact.bootTime])
              | Except.ok bt =>
                ({ c6 with boot_time := some bt },
                 [Fact.cpuName, Fact.cpuCoreCount, Fact.gpuName, Fact.gpuTotalVram,
                  Fact.totalRam, Fact.totalDisk, Fact.hostname, Fact.osName,
                  Fact.kernelVersion, Fact.bootTime])

/-- Every fact exactly once, in initialization order. -/
def allFactsOnce : List Fact :=
  [Fact.cpuName, Fact.cpuCoreCount, Fact.gpuName, Fact.gpuTotalVram,
   Fact.totalRam, Fact.totalDisk, Fact.hostname, Fact.osName,
   Fact.kernelVersion, Fact.bootTime]

/-- `TelemetryCollector._ensure_cache_initialized`: initialization runs only
when the `cpu_name` guard slot is still `None`. -/
def ensure_cache_initialized (env : CacheEnv) (c : StaticCache) :
    StaticCache × List Fact :=
  match c.cpu_name with
  | none => cache_static_data env c
  | some _ => (c, [])

/-- N successive `ensure_cache_initialized` calls against the same collector,
concatenating the resolver invocations they perform. The coroutine bodies of
the source contain no await on a true suspension point, so concurrently
launched calls execute to completion one after the other; this sequence is
therefore also the behaviour of N concurrent calls. -/
def ensure_n (env : CacheEnv) (c : StaticCache) : Nat → StaticCache × List Fact
  | 0 => (c, [])
  | Nat.succ n =>
    ((ensure_n env (ensure_cache_initialized env c).1 n).1,
     (ensure_cache_initialized env c).2
       ++ (ensure_n env (ensure_cache_initialized env c).1 n).2)

theorem cache_static_data_guard (env : CacheEnv) (c0 : StaticCache) :
    (cache_static_data env c0).1.cpu_name = some (get_cpu_name_static env.cpuinfo) := by
  rcases hcc : env.cpu_count with e1 | ncc <;>
    rcases hvm : env.virtual_memory with e2 | vm <;>
    rcases hdu : env.disk_usage with e3 | du <;>
    rcases hnn : env.nodename with e4 | hn <;>
    rcases hos : get_os_name env.lsb_release with e5 | osn <;>
    rcases hkr : env.kernel_release with e6 | kr <;>
    rcases hbt : env.boot_time with e7 | bt <;>
    simp [cache_static_data, hcc, hvm, hdu, hnn, hos, hkr, hbt]

theorem cache_static_data_trace_ok (env : CacheEnv) (c0 : StaticCache)
    (ncc : ℤ) (vm : VirtualMemory) (du : DiskUsage) (hn osn kr : String) (bt : ℚ)
    (hcc : env.cpu_count = Except.ok ncc)
    (hvm : env.virtual_memory = Except.ok vm)
    (hdu : env.disk_usage = Except.ok du)
    (hnn : env.nodename = Except.ok hn)
    (hos : get_os_name env.lsb_release = Except.ok osn)
    (hkr : env.kernel_release = Except.ok kr)
    (hbt : env.boot_time = Except.ok bt) :
    (cache_static_data env c0).2 = allFactsOnce := by
  simp [cache_static_data, hcc, hvm, hdu, hnn, hos, hkr, hbt, allFactsOnce]

theorem ensure_n_noop (env : CacheEnv) (c : StaticCache) (h : c.cpu_name ≠ none) :
    ∀ m : Nat, ensure_n env c m = (c, []) := by
  have hstep : ensure_cache_initialized env c = (c, []) := by
    unfold ensure_cache_initialized
    cases hc : c.cpu_name with
    | none => exact absurd hc h
    | some s => rfl
  intro m
  induction m with
  | zero => rfl
  | succ n ih => simp only [ensure_n, hstep, ih, List.append_nil]

theorem ensure_guard_set (env : CacheEnv) (c : StaticCache) :
    (ensure_cache_initialized env c).1.cpu_name ≠ none := by
  unfold ensure_cache_initialized
  cases hc : c.cpu_name with
  | none => simp [cache_static_data_guard]
  | some s => simp [hc]

/-- C4 (amended): in an environment where every underlying primitive
succeeds, N+1 sequential `ensure_cache_initialized` calls from a fresh
collector perform exactly one underlying resolution per fact (the source
coroutines contain no true suspension point, so concurrently issued calls
execute serially and this also covers the concurrent reading); and after any
one completed call, every later call performs no further resolution of any
fact, in every environment. -/
theorem c4_initialize_once (env : CacheEnv) (n : Nat) (ncc : ℤ)
    (vm : VirtualMemory) (du : DiskUsage) (hn osn kr : String) (bt : ℚ)
    (hcc : env.cpu_count = Except.ok ncc)
    (hvm : env.virtual_memory = Except.ok vm)
    (hdu : env.disk_usage = Except.ok du)
    (hnn : env.nodename = Except.ok hn)
    (hos : get_os_name env.lsb_release = Except.ok osn)
    (hkr : env.kernel_release = Except.ok kr)
    (hbt : env.boot_time = Except.ok bt) :
    (ensure_n env {} (n + 1)).2 = allFactsOnce
    ∧ (∀ f : Fact, ((ensure_n env {} (n + 1)).2).count f = 1)
    ∧ (∀ (env2 : CacheEnv) (c : StaticCache) (m : Nat),
        ensure_n env2 (ensure_cache_initialized env2 c).1 m
          = ((ensure_cache_initialized env2 c).1, [])) := by
  have htrace : (ensure_n env {} (n + 1)).2 = allFactsOnce := by
    have hrest := ensure_n_noop env (ensure_cache_initialized env {}).1
      (ensure_guard_set env {}) n
    simp only [ensure_n, hrest, List.append_nil]
    have hfirst : (ensure_cache_initialized env {}).2 = (cache_static_data env {}).2 := rfl
    rw [hfirst, cache_static_data_trace_ok env {} ncc vm du hn osn kr bt
      hcc hvm hdu hnn hos hkr hbt]
  refine ⟨htrace, ?_, ?_⟩
  · intro f
    rw [htrace]
    cases f <;> rfl
  · intro env2 c m
    exact ensure_n_noop env2 (ensure_cache_initialized env2 c).1
      (ensure_guard_set env2 c) m

/-- A concrete environment whose `psutil.cpu_count()` raises while every other
primitive is healthy. -/
def cacheEnvBad : CacheEnv :=
  { cpuinfo := Except.ok []
    cpu_count := Except.error PyErr.exn
    gpu_vendor := some "0x1002"
    gpu_device := some "0x164e"
    vram_total := none
    virtual_memory := Except.ok { used := 1, total := 2, percent := 50 }
    disk_usage := Except.ok { used := 1, total := 2 }
    nodename := Except.ok "host"
    lsb_release := SubprocResult.finished 0 "Description:\tUbuntu"
    kernel_release := Except.ok "6.8.0"
    boot_time := Except.ok 1 }

/-- C4 (counterexample): with `psutil.cpu_count()` raising during the first
initialization, two completed `ensure_cache_initialized` calls resolve only
the first two facts; the hostname resolver is invoked zero times over the
lifetime, not exactly once — and no later call ever retries, because the
guard fact `cpu_name` was set by the aborted attempt. -/
theorem c4_initialize_once_counterexample :
    (ensure_n cacheEnvBad {} 2).2 = [Fact.cpuName, Fact.cpuCoreCount]
    ∧ ((ensure_n cacheEnvBad {} 2).2).count Fact.hostname = 0
    ∧ (0 : Nat) ≠ 1 := by
  refine ⟨rfl, rfl, by decide⟩

/-- C4 (witness): the initialize-once theorem at a concrete healthy
environment and two sequential calls. -/
theorem c4_initialize_once_witness :
    (ensure_n
      { cpuinfo := Except.ok []
        cpu_count := Except.ok 8
        gpu_vendor := some "0x1002"
        gpu_device := some "0x164e"
        vram_total := none
        virtual_memory := Except.ok { used := 1, total := 2, percent := 50 }
        disk_usage := Except.ok { used := 1, total := 2 }
        nodename := Except.ok "host"
        lsb_release := SubprocResult.finished 0 "Description:\tUbuntu"
        kernel_release := Except.ok "6.8.0"
        boot_time := Except.ok 1 } {} (1 + 1)).2 = allFactsOnce := by
  exact (c4_initialize_once
    { cpuinfo := Except.ok []
      cpu_count := Except.ok 8
      gpu_vendor := some "0x1002"
      gpu_device := some "0x164e"
      vram_total := none
      virtual_memory := Except.ok { used := 1, total := 2, percent := 50 }
      disk_usage := Except.ok { used := 1, total := 2 }
      nodename := Except.ok "host"
      lsb_release := SubprocResult.finished 0 "Description:\tUbuntu"
      kernel_release := Except.ok "6.8.0"
      boot_time := Except.ok 1 }
    1 8 { used := 1, total := 2, percent := 50 } { used := 1, total := 2 }
    "host" "Ubuntu" "6.8.0" 1 rfl rfl rfl rfl rfl rfl rfl).1

/-- C5 (counterexample): in `cacheEnvBad` only `psutil.cpu_count()` raises,
yet after the initialization attempt the GPU name — whose own resolution
succeeds and would give "AMD Radeon RX 7900 XTX" — and the hostname are both
left unset: the failure of one fact aborted resolution of the others. -/
theorem c5_fact_independence_counterexample :
    (cache_static_data cacheEnvBad {}).1.gpu_name = none
    ∧ (cache_static_data cacheEnvBad {}).1.hostname = none
    ∧ get_gpu_name_from_device_ids cacheEnvBad.gpu_vendor cacheEnvBad.gpu_device
        = "AMD Radeon RX 7900 XTX"
    ∧ (cache_static_data cacheEnvBad {}).1.cpu_name = some "Unknown CPU" := by
  refine ⟨rfl, rfl, by decide, rfl⟩

/-- C5 (amended): a raising fact resolver aborts the initialization attempt —
shown at the `psutil.cpu_count()` step: every fact after it keeps its unset
default and its resolver is never invoked in the attempt, while the already
resolved `cpu_name` keeps its value; and the attempt is never retried, because
the first step always sets the `cpu_name` guard. -/
theorem c5_failure_aborts_attempt (env : CacheEnv) (c0 : StaticCache) (e : PyErr)
    (hcc : env.cpu_count = Except.error e) :
    cache_static_data env c0 =
      ({ c0 with cpu_name := some (get_cpu_name_static env.cpuinfo) },
        [Fact.cpuName, Fact.cpuCoreCount])
    ∧ (∀ (c : StaticCache) (m : Nat), c.cpu_name ≠ none →
        ensure_n env c m = (c, [])) := by
  constructor
  · simp [cache_static_data, hcc]
  · intro c m h
    exact ensure_n_noop env c h m

/-- C5 (witness): the abort theorem at the concrete failing environment,
exhibiting the resulting cache: only `cpu_name` populated. -/
theorem c5_failure_aborts_attempt_witness :
    cache_static_data cacheEnvBad {} =
      ({ cpu_name := some (get_cpu_name_static cacheEnvBad.cpuinfo) },
        [Fact.cpuName, Fact.cpuCoreCount]) := by
  exact (c5_failure_aborts_attempt cacheEnvBad {} PyErr.exn rfl).1

end SystemMonitor
